import Mathlib

/-
Verification of the pool-game physics core (CompSci20_PoolGame).

The embedding below translates the C++ sources into Lean:
  * `Ball`, its mutators and `isOverlappingBall` from Ball.h / Ball.cpp,
  * `resolveCircleCollisionPosition`, `resolveCircleCollisionVelocity`,
    `resolveCircleBoundaryCollision` and the per-ball body of `stepPhysics`
    from physics.cpp.
C++ `double` values are modelled as exact reals.  The C++ object address,
used by `isOverlappingBall` to rule out self-collision and stored in
`turn.pocketedBalls`, is modelled by the `addr` field.  Helpers whose
bodies are not among the provided sources (`calculateHypotenuse`,
`dotProduct`, `Ball::applyFriction`, `Ball::isInPocket`, the restitution
constant) are modelled from the spec and marked as such; the restitution
coefficient and the pocket-region predicate are passed as parameters.
-/

open scoped Classical

inductive BallType where
  | undetermined
  | cue
  | solid
  | striped
  | eight
  deriving DecidableEq

/-- Ball entity.  Position, velocity, radius and mass are from the Ball.h in
the sources; `visible`, `ballType`, `ballNumber` are the further fields the
spec's data model lists and physics.cpp reads (the full Ball declaration is
not among the provided sources).  `addr` models the C++ object address. -/
structure Ball where
  x : ℝ
  y : ℝ
  vx : ℝ
  vy : ℝ
  radius : ℝ
  mass : ℝ
  visible : Bool
  ballType : BallType
  ballNumber : Int
  addr : Nat

instance : Inhabited Ball := ⟨⟨0, 0, 0, 0, 0, 0, false, BallType.undetermined, 0, 0⟩⟩

/-- Ball::setPosition (Ball.cpp). -/
def Ball.setPosition (b : Ball) (px py : ℝ) : Ball := { b with x := px, y := py }

/-- Ball::addPosition (Ball.cpp). -/
def Ball.addPosition (b : Ball) (px py : ℝ) : Ball := { b with x := b.x + px, y := b.y + py }

/-- Ball::subPosition (declared in Ball.h; subtracts the given vector). -/
def Ball.subPosition (b : Ball) (px py : ℝ) : Ball := { b with x := b.x - px, y := b.y - py }

/-- Ball::setVelocity (Ball.cpp). -/
def Ball.setVelocity (b : Ball) (wx wy : ℝ) : Ball := { b with vx := wx, vy := wy }

/-- Ball::addVelocity (Ball.cpp). -/
def Ball.addVelocity (b : Ball) (wx wy : ℝ) : Ball := { b with vx := b.vx + wx, vy := b.vy + wy }

/-- Ball::subVelocity (declared in Ball.h; subtracts the given vector). -/
def Ball.subVelocity (b : Ball) (wx wy : ℝ) : Ball := { b with vx := b.vx - wx, vy := b.vy - wy }

/-- Ball::setRadius (Ball.cpp): `if (radius > 0.0) m_radius = radius;`. -/
noncomputable def Ball.setRadius (b : Ball) (r : ℝ) : Ball :=
  if 0 < r then { b with radius := r } else b

/-- Modelled from the spec: Ball::setMass is declared in Ball.h but its body is
not among the provided sources.  Spec 4.1: "Radius setter is the only validated
mutator; all others accept any real value", and spec 7 names only the radius
mutator in the validation policy, so the mass setter stores its argument
unconditionally. -/
def Ball.setMass (b : Ball) (m : ℝ) : Ball := { b with mass := m }

/-- Ball::setVisible. -/
def Ball.setVisible (b : Ball) (v : Bool) : Ball := { b with visible := v }

/-- Modelled from the spec: `calculateHypotenuse` (utilities.h) is not among
the provided sources; the spec defines it as the Euclidean distance
("let d = Euclidean distance between centers"). -/
noncomputable def calculateHypotenuse (px py : ℝ) : ℝ := Real.sqrt (px * px + py * py)

/-- Modelled from the spec: `dotProduct` (utilities.h) is not among the
provided sources; the spec uses it as the planar dot product
("impulse scalar p = 2*dot(n, deltav) / (ma + mb)"), with the argument order
of the call site `dotProduct(normalX, deltaVelocityX, normalY, deltaVelocityY)`. -/
def dotProduct (x1 x2 y1 y2 : ℝ) : ℝ := x1 * x2 + y1 * y2

/-- Ball::isOverlappingBall (Ball.cpp): false for the same object (address
comparison), otherwise squared centre distance against squared radius sum. -/
noncomputable def Ball.isOverlappingBall (b other : Ball) : Bool :=
  if b.addr = other.addr then false
  else
    if (b.x - other.x) * (b.x - other.x) + (b.y - other.y) * (b.y - other.y)
        ≤ (b.radius + other.radius) * (b.radius + other.radius) then true
    else false

/-- Centre distance as physics.cpp computes it:
`calculateHypotenuse(ball1.getX() - ball2.getX(), ball1.getY() - ball2.getY())`. -/
noncomputable def ballDistance (b1 b2 : Ball) : ℝ :=
  calculateHypotenuse (b1.x - b2.x) (b1.y - b2.y)

/-- physics::resolveCircleCollisionPosition (physics.cpp, lines 23-52). -/
noncomputable def resolveCircleCollisionPosition (b1 b2 : Ball) : Ball × Ball :=
  let ballDist := ballDistance b1 b2
  let ballOverlap := (ballDist - b1.radius - b2.radius) / 2
  let moveDistanceX := ballOverlap * (b1.x - b2.x) / ballDist
  let moveDistanceY := ballOverlap * (b1.y - b2.y) / ballDist
  (b1.subPosition moveDistanceX moveDistanceY, b2.addPosition moveDistanceX moveDistanceY)

/-- The unit normal's x component used by resolveCircleCollisionVelocity:
`(ball2.getX() - ball1.getX()) / ballDistance`. -/
noncomputable def collisionNormalX (b1 b2 : Ball) : ℝ := (b2.x - b1.x) / ballDistance b1 b2

/-- The unit normal's y component used by resolveCircleCollisionVelocity. -/
noncomputable def collisionNormalY (b1 b2 : Ball) : ℝ := (b2.y - b1.y) / ballDistance b1 b2

/-- physics::resolveCircleCollisionVelocity (physics.cpp, lines 54-94).
`e` is the restitution constant `consts::collisionFriction` (constants.h is not
among the provided sources; the spec supplies it as external configuration). -/
noncomputable def resolveCircleCollisionVelocity (e : ℝ) (b1 b2 : Ball) : Ball × Ball :=
  let nX := collisionNormalX b1 b2
  let nY := collisionNormalY b1 b2
  let dvX := b1.vx - b2.vx
  let dvY := b1.vy - b2.vy
  let p := 2 * dotProduct nX dvX nY dvY / (b1.mass + b2.mass)
  let newVX := p * nX * e
  let newVY := p * nY * e
  (b1.subVelocity (newVX * b2.mass) (newVY * b2.mass),
   b2.addVelocity (newVX * b1.mass) (newVY * b1.mass))

/-- Guarded-division variant of resolveCircleCollisionPosition: the source
divides by the centre distance unguarded; in this total embedding the
zero-denominator branch is made explicit as `none`. -/
noncomputable def resolveCircleCollisionPositionChecked (b1 b2 : Ball) :
    Option (Ball × Ball) :=
  if ballDistance b1 b2 = 0 then none else some (resolveCircleCollisionPosition b1 b2)

/-- Guarded-division variant of resolveCircleCollisionVelocity. -/
noncomputable def resolveCircleCollisionVelocityChecked (e : ℝ) (b1 b2 : Ball) :
    Option (Ball × Ball) :=
  if ballDistance b1 b2 = 0 then none else some (resolveCircleCollisionVelocity e b1 b2)

/-- The play-surface rectangle (utilities.h `Rectangle`, used via field access
`xPos1` ... `yPos2` in physics.cpp). -/
structure Rectangle where
  xPos1 : ℝ
  yPos1 : ℝ
  xPos2 : ℝ
  yPos2 : ℝ

/-- physics::resolveCircleBoundaryCollision (physics.cpp, lines 96-127).
Each axis branch records a position adjustment and flips that axis's velocity
(scaled by the restitution `e`); the two adjustments are applied together at
the end. -/
noncomputable def resolveCircleBoundaryCollision (e : ℝ) (ball : Ball)
    (boundary : Rectangle) : Ball :=
  let xA : ℝ × Ball :=
    if ball.x - ball.radius < boundary.xPos1 then
      (boundary.xPos1 - (ball.x - ball.radius), ball.setVelocity (-ball.vx * e) ball.vy)
    else if boundary.xPos2 < ball.x + ball.radius then
      (-(ball.x + ball.radius - boundary.xPos2), ball.setVelocity (-ball.vx * e) ball.vy)
    else (0, ball)
  let b1 := xA.2
  let yA : ℝ × Ball :=
    if b1.y - b1.radius < boundary.yPos1 then
      (boundary.yPos1 - (b1.y - b1.radius), b1.setVelocity b1.vx (-b1.vy * e))
    else if boundary.yPos2 < b1.y + b1.radius then
      (-(b1.y + b1.radius - boundary.yPos2), b1.setVelocity b1.vx (-b1.vy * e))
    else (0, b1)
  let b2 := yA.2
  if xA.1 ≠ 0 ∨ yA.1 ≠ 0 then b2.addPosition xA.1 yA.1 else b2

/-- `stepsNeeded` of physics::stepPhysics (physics.cpp line 185):
`std::ceil((|vx| + |vy|) / radius)`. -/
noncomputable def stepsNeeded (b : Ball) : ℤ := ⌈(|b.vx| + |b.vy|) / b.radius⌉

/-- Modelled from the spec: Ball::applyFriction's body is not among the
provided sources (physics.cpp calls it; spec 4.4 step 5: "Apply
rolling-friction decay to velocity, snapping to zero once the combined speed
falls below a stopping threshold", matching the friction part of the older
Ball::movementStep in the sources). -/
noncomputable def Ball.applyFriction (b : Ball) (friction stopVelocity : ℝ) : Ball :=
  if calculateHypotenuse b.vx b.vy < stopVelocity then b.setVelocity 0 0
  else { b with vx := b.vx - b.vx * friction, vy := b.vy - b.vy * friction }

/-- Player, as the spec's data model gives it: just a mutable target ball
type (undetermined | solid | striped). -/
structure Player where
  targetBallType : BallType

instance : Inhabited Player := ⟨⟨BallType.undetermined⟩⟩

/-- TurnInformation: first ball type hit, pocketed balls (the C++ stores
`Ball*` pointers; modelled by the `addr` value), acting player index. -/
structure TurnInformation where
  firstHitBallType : BallType
  pocketedBalls : List Nat
  turnPlayerIndex : Nat

/-- State threaded through one ball's sub-step loop in physics::stepPhysics:
the shared ball vector, the turn record, and the `hasCollided` flag. -/
structure SimState where
  balls : List Ball
  turn : TurnInformation
  hasCollided : Bool

/-- `(ball.getBallType() == BallType::solid) ? BallType::striped : BallType::solid`
(physics.cpp line 230). -/
def oppositeType (t : BallType) : BallType :=
  if t = BallType.solid then BallType.striped else BallType.solid

/-- The target-assignment block of physics::stepPhysics (lines 224-232): if the
acting player's target type is undetermined and the pocketed ball is solid or
striped, assign that type to the acting player and the complementary type to
the player at index `(turnPlayerIndex + 1) % gamePlayers.size()`. -/
def assignTargets (players : List Player) (idx : Nat) (ball : Ball) : List Player :=
  if (players.getD idx default).targetBallType = BallType.undetermined then
    if ball.ballType = BallType.solid ∨ ball.ballType = BallType.striped then
      (players.set idx ⟨ball.ballType⟩).set ((idx + 1) % players.length)
        ⟨oppositeType ball.ballType⟩
    else players
  else players

/-- The pocket block of physics::stepPhysics (lines 220-233), run after the
sub-step loop: if the ball is in a pocket, make it invisible, append its
address to `turn.pocketedBalls`, and run the target assignment.  `inPocket`
models Ball::isInPocket, whose body is not among the provided sources
(Modelled from the spec: "if the ball's position falls inside a pocket
region"; pocket region definitions are external configuration). -/
def pocketPhase (inPocket : Ball → Bool) (players : List Player)
    (turn : TurnInformation) (ball : Ball) : Ball × List Player × TurnInformation :=
  if inPocket ball = true then
    (ball.setVisible false,
     assignTargets players turn.turnPlayerIndex ball,
     { turn with pocketedBalls := turn.pocketedBalls ++ [ball.addr] })
  else (ball, players, turn)

/-- One iteration of the inner collision scan of physics::stepPhysics (lines
198-214) against the ball at index `j`: on overlap, resolve position then
velocity (the velocity resolution reads the just-separated positions, as the
in-place C++ does), record the first hit type, and set the collided flag. -/
noncomputable def collisionCheckAt (e : ℝ) (i j : Nat) (st : SimState) : SimState :=
  let ball := st.balls.getD i default
  let target := st.balls.getD j default
  if ball.isOverlappingBall target = true then
    let p := resolveCircleCollisionPosition ball target
    let v := resolveCircleCollisionVelocity e p.1 p.2
    let turn1 :=
      if st.turn.firstHitBallType = BallType.undetermined then
        { st.turn with
          firstHitBallType := if ball.ballNumber = 0 then target.ballType else ball.ballType }
      else st.turn
    { balls := (st.balls.set i v.1).set j v.2, turn := turn1, hasCollided := true }
  else st

/-- One sub-step of the while loop of physics::stepPhysics (lines 194-217):
move the ball at index `i` by the per-step vector, then scan every ball in
the vector for overlap. -/
noncomputable def subStepIter (e : ℝ) (i : Nat) (sx sy : ℝ) (st : SimState) : SimState :=
  let moved : SimState :=
    { st with balls := st.balls.set i ((st.balls.getD i default).addPosition sx sy) }
  (List.range moved.balls.length).foldl (fun s j => collisionCheckAt e i j s) moved

/-- The while loop of physics::stepPhysics:
`while (stepsNeeded > 0.0 && !hasCollided) { ... }`, with the remaining step
count as fuel. -/
noncomputable def subStepLoop (e : ℝ) (i : Nat) (sx sy : ℝ) : Nat → SimState → SimState
  | 0, st => st
  | fuel + 1, st =>
    if st.hasCollided = true then st
    else subStepLoop e i sx sy fuel (subStepIter e i sx sy st)

/-- The full sub-step loop for the ball at index `i`, started with a cleared
collided flag, per-step displacement `velocity / stepsNeeded`, and
`stepsNeeded` iterations of fuel. -/
noncomputable def loopResultAt (e : ℝ) (balls : List Ball) (turn : TurnInformation)
    (i : Nat) : SimState :=
  let ball := balls.getD i default
  subStepLoop e i (ball.vx / (stepsNeeded ball : ℝ)) (ball.vy / (stepsNeeded ball : ℝ))
    (stepsNeeded ball).toNat { balls := balls, turn := turn, hasCollided := false }

/-- The ball at index `i` as it stands right after its sub-step loop. -/
noncomputable def afterLoopBallAt (e : ℝ) (balls : List Ball) (turn : TurnInformation)
    (i : Nat) : Ball :=
  (loopResultAt e balls turn i).balls.getD i default

/-- The body of the per-ball loop of physics::stepPhysics (lines 180-237) for
the ball at index `i`: skip invisible balls; if `stepsNeeded > 0`, run the
sub-step loop, then the pocket block, then friction, then the boundary
resolution; otherwise leave everything unchanged. -/
noncomputable def processBall (inPocket : Ball → Bool) (e friction stopVelocity : ℝ)
    (boundary : Rectangle) (st : List Ball × List Player × TurnInformation) (i : Nat) :
    List Ball × List Player × TurnInformation :=
  let ball := st.1.getD i default
  if ball.visible = false then st
  else if 0 < stepsNeeded ball then
    let pk := pocketPhase inPocket st.2.1 (loopResultAt e st.1 st.2.2 i).turn
      (afterLoopBallAt e st.1 st.2.2 i)
    ((loopResultAt e st.1 st.2.2 i).balls.set i
      (resolveCircleBoundaryCollision e (pk.1.applyFriction friction stopVelocity) boundary),
     pk.2.1, pk.2.2)
  else st

/-- physics::stepPhysics: the per-ball processing folded over the vector. -/
noncomputable def stepPhysics (inPocket : Ball → Bool) (e friction stopVelocity : ℝ)
    (boundary : Rectangle) (balls : List Ball) (players : List Player)
    (turn : TurnInformation) : List Ball × List Player × TurnInformation :=
  (List.range balls.length).foldl (processBall inPocket e friction stopVelocity boundary)
    (balls, players, turn)

/-- Concrete ball at the origin, radius 3, mass 1, for evaluation. -/
def ballA : Ball := ⟨0, 0, 1, 0, 3, 1, true, BallType.cue, 0, 0⟩

/-- Concrete ball at (3, 4), radius 3, mass 2 (centre distance to `ballA` is 5,
so the two overlap: 25 ≤ 36). -/
def ballB : Ball := ⟨3, 4, 0, 0, 3, 2, true, BallType.solid, 1, 1⟩

/-- Concrete ball at (2, 3): one of a coincident-centre pair. -/
def ballE : Ball := ⟨2, 3, 1, 0, 1, 1, true, BallType.solid, 1, 10⟩

/-- Concrete distinct ball whose centre coincides with `ballE`'s. -/
def ballF : Ball := ⟨2, 3, 0, 0, 1, 1, true, BallType.striped, 9, 11⟩

/-- Concrete ball with mass 5, for the setter claims. -/
def ballM : Ball := ⟨0, 0, 0, 0, 2, 5, true, BallType.cue, 0, 0⟩

/-- Concrete ball with velocity (3, 4) and radius 2, for the sub-step bound. -/
def ballS : Ball := ⟨0, 0, 3, 4, 2, 1, true, BallType.cue, 0, 0⟩

/-- Concrete moving solid ball (velocity (1, 0), radius 2), for the pocket
rules. -/
def ballP : Ball := ⟨0, 0, 1, 0, 2, 1, true, BallType.solid, 3, 7⟩

/-- Concrete stationary visible solid ball. -/
def ballQ : Ball := ⟨0, 0, 0, 0, 1, 1, true, BallType.solid, 5, 9⟩

/-- Two players, both with an undetermined target type. -/
def playersW : List Player := [⟨BallType.undetermined⟩, ⟨BallType.undetermined⟩]

/-- A fresh turn record for player 0. -/
def turnW : TurnInformation := ⟨BallType.undetermined, [], 0⟩

/-- The play surface (0,0)-(10,10) used by the concrete scenarios. -/
def rectW : Rectangle := ⟨0, 0, 10, 10⟩

/-- The spec's boundary scenario ball: radius 1 at (0.5, 5), velocity (-1, 0). -/
noncomputable def scenarioBall : Ball := ⟨1/2, 5, -1, 0, 1, 1, true, BallType.cue, 0, 0⟩

/-- The parts of the sub-step loop state that the collision scan never
touches: the ball count, the pocketed list and the acting player index. -/
def simInvariants (st : SimState) : Nat × List Nat × Nat :=
  (st.balls.length, st.turn.pocketedBalls, st.turn.turnPlayerIndex)

lemma sqrt_le_abs_add_abs (a b : ℝ) : Real.sqrt (a * a + b * b) ≤ |a| + |b| := by
  have h : a * a + b * b ≤ (|a| + |b|) * (|a| + |b|) := by
    nlinarith [abs_mul_abs_self a, abs_mul_abs_self b, mul_nonneg (abs_nonneg a) (abs_nonneg b)]
  calc Real.sqrt (a * a + b * b) ≤ Real.sqrt ((|a| + |b|) * (|a| + |b|)) :=
        Real.sqrt_le_sqrt h
    _ = |a| + |b| := Real.sqrt_mul_self (by positivity)

/-- Claim C9: `isOverlappingBall` is false on the same ball object, and on any
pair it returns true exactly when the balls are distinct objects and the
squared centre distance is at most the squared radius sum (so exactly touching
balls, distance = ra + rb, count as overlapping). -/
theorem isOverlappingBall_characterization (a b : Ball) :
    a.isOverlappingBall a = false ∧
    (a.isOverlappingBall b = true ↔ a.addr ≠ b.addr ∧
      (a.x - b.x) * (a.x - b.x) + (a.y - b.y) * (a.y - b.y)
        ≤ (a.radius + b.radius) * (a.radius + b.radius)) := by
  constructor
  · simp [Ball.isOverlappingBall]
  · unfold Ball.isOverlappingBall
    split_ifs with h1 h2 <;> simp_all

/-- Claim C5 counterexample: the mass setter does not reject non-positive
values; setting mass -1 on a ball of mass 5 stores -1 instead of keeping 5. -/
theorem setMass_stores_nonpositive :
    (ballM.setMass (-1)).mass = -1 ∧ (ballM.setMass (-1)).mass ≠ ballM.mass := by
  constructor
  · rfl
  · show (-1 : ℝ) ≠ 5
    norm_num

/-- Claim C5 as amended: the radius setter silently keeps the prior value on a
non-positive input and stores any positive input; the mass setter (modelled
from spec 4.1/7, its body not being among the provided sources) stores every
input unconditionally, so it is not a validated mutator. -/
theorem setRadius_validated_setMass_unvalidated (b : Ball) (r m : ℝ) :
    (r ≤ 0 → b.setRadius r = b) ∧ (0 < r → (b.setRadius r).radius = r) ∧
    (b.setMass m).mass = m := by
  refine ⟨fun h => ?_, fun h => ?_, rfl⟩
  · rw [Ball.setRadius, if_neg (by linarith)]
  · rw [Ball.setRadius, if_pos h]

theorem setRadius_validated_setMass_unvalidated_witness :
    ((-1 : ℝ) ≤ 0 ∧ ballM.setRadius (-1) = ballM) ∧
    (0 < (3 : ℝ) ∧ (ballM.setRadius 3).radius = 3) ∧
    (ballM.setMass 2).mass = 2 :=
  ⟨⟨by norm_num, (setRadius_validated_setMass_unvalidated ballM (-1) 2).1 (by norm_num)⟩,
   ⟨by norm_num, (setRadius_validated_setMass_unvalidated ballM 3 2).2.1 (by norm_num)⟩,
   (setRadius_validated_setMass_unvalidated ballM 0 2).2.2⟩

/-- Claim C6: a concrete pair of distinct balls with exactly coincident
centres passes the overlap test, yet the centre distance — the denominator of
both collision resolutions — is zero, so in the guarded total embedding both
resolutions hit the zero-denominator branch. -/
theorem coincident_centers_reach_zero_denominator :
    ballE.isOverlappingBall ballF = true ∧ ballDistance ballE ballF = 0 ∧
    resolveCircleCollisionPositionChecked ballE ballF = none ∧
    resolveCircleCollisionVelocityChecked 1 ballE ballF = none := by
  have hdist : ballDistance ballE ballF = 0 := by
    show Real.sqrt ((2 - 2) * (2 - 2) + (3 - 3) * (3 - 3)) = 0
    norm_num
  refine ⟨?_, hdist, ?_, ?_⟩
  · show Ball.isOverlappingBall ⟨2, 3, 1, 0, 1, 1, true, BallType.solid, 1, 10⟩
      ⟨2, 3, 0, 0, 1, 1, true, BallType.striped, 9, 11⟩ = true
    rw [Ball.isOverlappingBall, if_neg (by norm_num), if_pos (by norm_num)]
  · rw [resolveCircleCollisionPositionChecked, if_pos hdist]
  · rw [resolveCircleCollisionVelocityChecked, if_pos hdist]

/-- Claim C7: the sub-step loop is the identity on any state whose collided
flag is set: once a collision is registered during some sub-step of the tick,
no further per-step position increment is applied to the ball, however much
fuel (remaining `stepsNeeded`) is left — the position increment only occurs
inside `subStepIter`, which the loop runs only while the flag is clear. -/
theorem subStepLoop_stops_after_collision (e : ℝ) (i : Nat) (sx sy : ℝ)
    (fuel : Nat) (st : SimState) (h : st.hasCollided = true) :
    subStepLoop e i sx sy fuel st = st := by
  cases fuel with
  | zero => rfl
  | succ n => rw [subStepLoop, if_pos h]

theorem subStepLoop_stops_after_collision_witness :
    (SimState.mk [ballA] turnW true).hasCollided = true ∧
    subStepLoop 1 0 1 0 5 (SimState.mk [ballA] turnW true)
      = SimState.mk [ballA] turnW true :=
  ⟨rfl, subStepLoop_stops_after_collision 1 0 1 0 5 (SimState.mk [ballA] turnW true) rfl⟩

lemma sep_core (x1 y1 x2 y2 r1 r2 d mx my : ℝ) (hd : 0 < d)
    (hd2 : d * d = (x1 - x2) * (x1 - x2) + (y1 - y2) * (y1 - y2))
    (hmx : mx = (d - r1 - r2) / 2 * (x1 - x2) / d)
    (hmy : my = (d - r1 - r2) / 2 * (y1 - y2) / d)
    (hr : 0 ≤ r1 + r2) :
    Real.sqrt ((x1 - mx - (x2 + mx)) * (x1 - mx - (x2 + mx))
      + (y1 - my - (y2 + my)) * (y1 - my - (y2 + my))) = r1 + r2 := by
  have hxx : x1 - mx - (x2 + mx) = (x1 - x2) * (r1 + r2) / d := by
    subst hmx; field_simp; ring
  have hyy : y1 - my - (y2 + my) = (y1 - y2) * (r1 + r2) / d := by
    subst hmy; field_simp; ring
  rw [hxx, hyy]
  have hsum : (x1 - x2) * (r1 + r2) / d * ((x1 - x2) * (r1 + r2) / d)
      + (y1 - y2) * (r1 + r2) / d * ((y1 - y2) * (r1 + r2) / d)
      = (r1 + r2) * (r1 + r2) := by
    field_simp
    linear_combination ((r1 + r2) * (r1 + r2)) * hd2.symm
  rw [hsum, Real.sqrt_mul_self hr]

/-- Claim C1: on distinct balls with non-coincident centres, invoked after a
successful overlap test, the position resolution displaces ball 1 by the exact
negation of ball 2's displacement, and the recomputed centre distance is at
least (in fact exactly) the radius sum, so there is no residual overlap. -/
theorem resolvePosition_separation (b1 b2 : Ball)
    (hne : b1.x ≠ b2.x ∨ b1.y ≠ b2.y)
    (hr1 : 0 ≤ b1.radius) (hr2 : 0 ≤ b2.radius)
    (hov : b1.isOverlappingBall b2 = true) :
    ((resolveCircleCollisionPosition b1 b2).1.x - b1.x
        = -((resolveCircleCollisionPosition b1 b2).2.x - b2.x) ∧
      (resolveCircleCollisionPosition b1 b2).1.y - b1.y
        = -((resolveCircleCollisionPosition b1 b2).2.y - b2.y)) ∧
    b1.radius + b2.radius
      ≤ ballDistance (resolveCircleCollisionPosition b1 b2).1
          (resolveCircleCollisionPosition b1 b2).2 := by
  have hS : 0 < (b1.x - b2.x) * (b1.x - b2.x) + (b1.y - b2.y) * (b1.y - b2.y) := by
    rcases hne with h | h
    · have h1 : 0 < (b1.x - b2.x) * (b1.x - b2.x) := mul_self_pos.mpr (sub_ne_zero.mpr h)
      nlinarith [mul_self_nonneg (b1.y - b2.y)]
    · have h1 : 0 < (b1.y - b2.y) * (b1.y - b2.y) := mul_self_pos.mpr (sub_ne_zero.mpr h)
      nlinarith [mul_self_nonneg (b1.x - b2.x)]
  have hd : 0 < ballDistance b1 b2 := Real.sqrt_pos.mpr hS
  have hd2 : ballDistance b1 b2 * ballDistance b1 b2
      = (b1.x - b2.x) * (b1.x - b2.x) + (b1.y - b2.y) * (b1.y - b2.y) :=
    Real.mul_self_sqrt hS.le
  simp only [resolveCircleCollisionPosition, Ball.subPosition, Ball.addPosition,
    ballDistance, calculateHypotenuse] at hd hd2 ⊢
  refine ⟨⟨by ring, by ring⟩, ?_⟩
  exact le_of_eq (sep_core b1.x b1.y b2.x b2.y b1.radius b2.radius _ _ _ hd hd2 rfl rfl
    (by linarith)).symm

/-- Claim C2: with restitution 1, the velocity resolution conserves momentum
along the collision normal, and the impulse is applied to each ball along the
normal scaled by the other ball's mass. -/
theorem resolveVelocity_momentum_normal_elastic (b1 b2 : Ball)
    (hid : b1.addr ≠ b2.addr) (hne : b1.x ≠ b2.x ∨ b1.y ≠ b2.y)
    (hm1 : 0 < b1.mass) (hm2 : 0 < b2.mass) :
    b1.mass * ((resolveCircleCollisionVelocity 1 b1 b2).1.vx * collisionNormalX b1 b2 +
        (resolveCircleCollisionVelocity 1 b1 b2).1.vy * collisionNormalY b1 b2) +
      b2.mass * ((resolveCircleCollisionVelocity 1 b1 b2).2.vx * collisionNormalX b1 b2 +
        (resolveCircleCollisionVelocity 1 b1 b2).2.vy * collisionNormalY b1 b2)
      = b1.mass * (b1.vx * collisionNormalX b1 b2 + b1.vy * collisionNormalY b1 b2) +
        b2.mass * (b2.vx * collisionNormalX b1 b2 + b2.vy * collisionNormalY b1 b2) ∧
    ∃ q : ℝ,
      (resolveCircleCollisionVelocity 1 b1 b2).1.vx
          = b1.vx - q * b2.mass * collisionNormalX b1 b2 ∧
      (resolveCircleCollisionVelocity 1 b1 b2).1.vy
          = b1.vy - q * b2.mass * collisionNormalY b1 b2 ∧
      (resolveCircleCollisionVelocity 1 b1 b2).2.vx
          = b2.vx + q * b1.mass * collisionNormalX b1 b2 ∧
      (resolveCircleCollisionVelocity 1 b1 b2).2.vy
          = b2.vy + q * b1.mass * collisionNormalY b1 b2 := by
  simp only [resolveCircleCollisionVelocity, Ball.subVelocity, Ball.addVelocity, dotProduct]
  constructor
  · ring
  · refine ⟨2 * (collisionNormalX b1 b2 * (b1.vx - b2.vx) +
      collisionNormalY b1 b2 * (b1.vy - b2.vy)) / (b1.mass + b2.mass),
      by ring, by ring, by ring, by ring⟩

theorem resolveVelocity_momentum_normal_elastic_witness :
    ballA.addr ≠ ballB.addr ∧ (ballA.x ≠ ballB.x ∨ ballA.y ≠ ballB.y) ∧
    0 < ballA.mass ∧ 0 < ballB.mass ∧
    (ballA.mass * ((resolveCircleCollisionVelocity 1 ballA ballB).1.vx * collisionNormalX ballA ballB +
        (resolveCircleCollisionVelocity 1 ballA ballB).1.vy * collisionNormalY ballA ballB) +
      ballB.mass * ((resolveCircleCollisionVelocity 1 ballA ballB).2.vx * collisionNormalX ballA ballB +
        (resolveCircleCollisionVelocity 1 ballA ballB).2.vy * collisionNormalY ballA ballB)
      = ballA.mass * (ballA.vx * collisionNormalX ballA ballB + ballA.vy * collisionNormalY ballA ballB) +
        ballB.mass * (ballB.vx * collisionNormalX ballA ballB + ballB.vy * collisionNormalY ballA ballB) ∧
    ∃ q : ℝ,
      (resolveCircleCollisionVelocity 1 ballA ballB).1.vx
          = ballA.vx - q * ballB.mass * collisionNormalX ballA ballB ∧
      (resolveCircleCollisionVelocity 1 ballA ballB).1.vy
          = ballA.vy - q * ballB.mass * collisionNormalY ballA ballB ∧
      (resolveCircleCollisionVelocity 1 ballA ballB).2.vx
          = ballB.vx + q * ballA.mass * collisionNormalX ballA ballB ∧
      (resolveCircleCollisionVelocity 1 ballA ballB).2.vy
          = ballB.vy + q * ballA.mass * collisionNormalY ballA ballB) :=
  ⟨by norm_num [ballA, ballB], Or.inl (by norm_num [ballA, ballB]),
   by norm_num [ballA], by norm_num [ballB],
   resolveVelocity_momentum_normal_elastic ballA ballB (by norm_num [ballA, ballB])
     (Or.inl (by norm_num [ballA, ballB])) (by norm_num [ballA]) (by norm_num [ballB])⟩

/-- Claim C10: for every restitution value, the velocity resolution conserves
the total momentum vector exactly in both components: the impulse along the
normal is subtracted from ball 1 weighted by ball 2's mass and added to ball 2
weighted by ball 1's mass, so the weighted sums cancel. -/
theorem resolveVelocity_momentum_conservation (e : ℝ) (b1 b2 : Ball)
    (hid : b1.addr ≠ b2.addr) (hne : b1.x ≠ b2.x ∨ b1.y ≠ b2.y)
    (hm1 : 0 < b1.mass) (hm2 : 0 < b2.mass) :
    b1.mass * (resolveCircleCollisionVelocity e b1 b2).1.vx +
        b2.mass * (resolveCircleCollisionVelocity e b1 b2).2.vx
      = b1.mass * b1.vx + b2.mass * b2.vx ∧
    b1.mass * (resolveCircleCollisionVelocity e b1 b2).1.vy +
        b2.mass * (resolveCircleCollisionVelocity e b1 b2).2.vy
      = b1.mass * b1.vy + b2.mass * b2.vy := by
  simp only [resolveCircleCollisionVelocity, Ball.subVelocity, Ball.addVelocity, dotProduct]
  constructor <;> ring

theorem resolveVelocity_momentum_conservation_witness :
    ballA.addr ≠ ballB.addr ∧ (ballA.x ≠ ballB.x ∨ ballA.y ≠ ballB.y) ∧
    0 < ballA.mass ∧ 0 < ballB.mass ∧
    (ballA.mass * (resolveCircleCollisionVelocity (1/2) ballA ballB).1.vx +
        ballB.mass * (resolveCircleCollisionVelocity (1/2) ballA ballB).2.vx
      = ballA.mass * ballA.vx + ballB.mass * ballB.vx ∧
    ballA.mass * (resolveCircleCollisionVelocity (1/2) ballA ballB).1.vy +
        ballB.mass * (resolveCircleCollisionVelocity (1/2) ballA ballB).2.vy
      = ballA.mass * ballA.vy + ballB.mass * ballB.vy) :=
  ⟨by norm_num [ballA, ballB], Or.inl (by norm_num [ballA, ballB]),
   by norm_num [ballA], by norm_num [ballB],
   resolveVelocity_momentum_conservation (1/2) ballA ballB (by norm_num [ballA, ballB])
     (Or.inl (by norm_num [ballA, ballB])) (by norm_num [ballA]) (by norm_num [ballB])⟩

theorem resolvePosition_separation_witness :
    (ballA.x ≠ ballB.x ∨ ballA.y ≠ ballB.y) ∧ 0 ≤ ballA.radius ∧ 0 ≤ ballB.radius ∧
    ballA.isOverlappingBall ballB = true ∧
    (((resolveCircleCollisionPosition ballA ballB).1.x - ballA.x
        = -((resolveCircleCollisionPosition ballA ballB).2.x - ballB.x) ∧
      (resolveCircleCollisionPosition ballA ballB).1.y - ballA.y
        = -((resolveCircleCollisionPosition ballA ballB).2.y - ballB.y)) ∧
    ballA.radius + ballB.radius
      ≤ ballDistance (resolveCircleCollisionPosition ballA ballB).1
          (resolveCircleCollisionPosition ballA ballB).2) :=
  ⟨Or.inl (by norm_num [ballA, ballB]), by norm_num [ballA], by norm_num [ballB],
   by rw [ballA, ballB, Ball.isOverlappingBall, if_neg (by norm_num), if_pos (by norm_num)],
   resolvePosition_separation ballA ballB (Or.inl (by norm_num [ballA, ballB]))
     (by norm_num [ballA]) (by norm_num [ballB])
     (by rw [ballA, ballB, Ball.isOverlappingBall, if_neg (by norm_num), if_pos (by norm_num)])⟩

/-- Claim C3: whenever `stepsNeeded = ceil((|vx| + |vy|) / radius)` is at
least 1 and the radius is positive, the per-step displacement
`velocity / stepsNeeded` has Euclidean magnitude at most one radius. -/
theorem stepDisplacement_within_radius (b : Ball) (hr : 0 < b.radius)
    (hs : 0 < stepsNeeded b) :
    calculateHypotenuse (b.vx / (stepsNeeded b : ℝ)) (b.vy / (stepsNeeded b : ℝ))
      ≤ b.radius := by
  have hs1 : (1 : ℝ) ≤ (stepsNeeded b : ℝ) := by exact_mod_cast hs
  have hs0 : (0 : ℝ) < (stepsNeeded b : ℝ) := by linarith
  have hceil : (|b.vx| + |b.vy|) / b.radius ≤ (stepsNeeded b : ℝ) := by
    unfold stepsNeeded
    exact Int.le_ceil _
  have hsum : |b.vx| + |b.vy| ≤ (stepsNeeded b : ℝ) * b.radius := by
    rw [div_le_iff hr] at hceil
    exact hceil
  calc calculateHypotenuse (b.vx / (stepsNeeded b : ℝ)) (b.vy / (stepsNeeded b : ℝ))
      ≤ |b.vx / (stepsNeeded b : ℝ)| + |b.vy / (stepsNeeded b : ℝ)| := by
        rw [calculateHypotenuse]; exact sqrt_le_abs_add_abs _ _
    _ = (|b.vx| + |b.vy|) / (stepsNeeded b : ℝ) := by
        rw [abs_div, abs_div, abs_of_pos hs0, div_add_div_same]
    _ ≤ (stepsNeeded b : ℝ) * b.radius / (stepsNeeded b : ℝ) :=
        (div_le_div_right hs0).mpr hsum
    _ = b.radius := mul_div_cancel_left₀ _ hs0.ne'

theorem stepDisplacement_within_radius_witness :
    0 < ballS.radius ∧ 0 < stepsNeeded ballS ∧
    calculateHypotenuse (ballS.vx / (stepsNeeded ballS : ℝ))
      (ballS.vy / (stepsNeeded ballS : ℝ)) ≤ ballS.radius :=
  ⟨by norm_num [ballS],
   by simp only [stepsNeeded, ballS]; rw [Int.ceil_pos]; norm_num,
   stepDisplacement_within_radius ballS (by norm_num [ballS])
     (by simp only [stepsNeeded, ballS]; rw [Int.ceil_pos]; norm_num)⟩

lemma boundary_edge_velocity (e : ℝ) (ball : Ball) (boundary : Rectangle)
    (hfx : 2 * ball.radius ≤ boundary.xPos2 - boundary.xPos1)
    (hfy : 2 * ball.radius ≤ boundary.yPos2 - boundary.yPos1) :
    (boundary.xPos1 ≤ (resolveCircleBoundaryCollision e ball boundary).x
        - (resolveCircleBoundaryCollision e ball boundary).radius ∧
      (resolveCircleBoundaryCollision e ball boundary).x
        + (resolveCircleBoundaryCollision e ball boundary).radius ≤ boundary.xPos2 ∧
      boundary.yPos1 ≤ (resolveCircleBoundaryCollision e ball boundary).y
        - (resolveCircleBoundaryCollision e ball boundary).radius ∧
      (resolveCircleBoundaryCollision e ball boundary).y
        + (resolveCircleBoundaryCollision e ball boundary).radius ≤ boundary.yPos2) ∧
    ((ball.x - ball.radius < boundary.xPos1 ∨ boundary.xPos2 < ball.x + ball.radius) →
      (resolveCircleBoundaryCollision e ball boundary).vx = -ball.vx * e) ∧
    ((boundary.xPos1 ≤ ball.x - ball.radius ∧ ball.x + ball.radius ≤ boundary.xPos2) →
      (resolveCircleBoundaryCollision e ball boundary).vx = ball.vx) ∧
    ((ball.y - ball.radius < boundary.yPos1 ∨ boundary.yPos2 < ball.y + ball.radius) →
      (resolveCircleBoundaryCollision e ball boundary).vy = -ball.vy * e) ∧
    ((boundary.yPos1 ≤ ball.y - ball.radius ∧ ball.y + ball.radius ≤ boundary.yPos2) →
      (resolveCircleBoundaryCollision e ball boundary).vy = ball.vy) := by
  simp only [resolveCircleBoundaryCollision, Ball.setVelocity, Ball.addPosition]
  split_ifs <;>
    (try dsimp only at *) <;>
    (try push_neg at *) <;>
    refine ⟨⟨by linarith, by linarith, by linarith, by linarith⟩, ?_, ?_, ?_, ?_⟩ <;>
    intro hcond <;>
    first
      | linarith
      | (rcases hcond with hc | hc <;> linarith)
      | (obtain ⟨hca, hcb⟩ := hcond; linarith)

/-- Claim C8: after the boundary resolution on a ball that fits in the
rectangle, each axis's edges lie within the bounds (flush with a crossed
boundary); an axis that bounced has its velocity negated and scaled by the
restitution, an axis that did not keeps its velocity; both axes' corrections
are applied together; and the spec's scenario (radius 1 at (0.5, 5) in
(0,0)-(10,10) with velocity (-1, 0)) ends at x = 1 with positive x-velocity. -/
theorem boundary_resolution_correct (e : ℝ) (ball : Ball) (boundary : Rectangle)
    (he : 0 < e)
    (hfx : 2 * ball.radius ≤ boundary.xPos2 - boundary.xPos1)
    (hfy : 2 * ball.radius ≤ boundary.yPos2 - boundary.yPos1) :
    (boundary.xPos1 ≤ (resolveCircleBoundaryCollision e ball boundary).x
        - (resolveCircleBoundaryCollision e ball boundary).radius ∧
      (resolveCircleBoundaryCollision e ball boundary).x
        + (resolveCircleBoundaryCollision e ball boundary).radius ≤ boundary.xPos2 ∧
      boundary.yPos1 ≤ (resolveCircleBoundaryCollision e ball boundary).y
        - (resolveCircleBoundaryCollision e ball boundary).radius ∧
      (resolveCircleBoundaryCollision e ball boundary).y
        + (resolveCircleBoundaryCollision e ball boundary).radius ≤ boundary.yPos2) ∧
    ((ball.x - ball.radius < boundary.xPos1 ∨ boundary.xPos2 < ball.x + ball.radius) →
      (resolveCircleBoundaryCollision e ball boundary).vx = -ball.vx * e) ∧
    ((boundary.xPos1 ≤ ball.x - ball.radius ∧ ball.x + ball.radius ≤ boundary.xPos2) →
      (resolveCircleBoundaryCollision e ball boundary).vx = ball.vx) ∧
    ((ball.y - ball.radius < boundary.yPos1 ∨ boundary.yPos2 < ball.y + ball.radius) →
      (resolveCircleBoundaryCollision e ball boundary).vy = -ball.vy * e) ∧
    ((boundary.yPos1 ≤ ball.y - ball.radius ∧ ball.y + ball.radius ≤ boundary.yPos2) →
      (resolveCircleBoundaryCollision e ball boundary).vy = ball.vy) ∧
    ((resolveCircleBoundaryCollision e scenarioBall rectW).x = 1 ∧
      0 < (resolveCircleBoundaryCollision e scenarioBall rectW).vx) := by
  have scen : (resolveCircleBoundaryCollision e scenarioBall rectW).x = 1 ∧
      0 < (resolveCircleBoundaryCollision e scenarioBall rectW).vx := by
    simp only [resolveCircleBoundaryCollision, scenarioBall, rectW, Ball.setVelocity,
      Ball.addPosition]
    norm_num
    linarith
  have main := boundary_edge_velocity e ball boundary hfx hfy
  exact ⟨main.1, main.2.1, main.2.2.1, main.2.2.2.1, main.2.2.2.2, scen⟩

theorem boundary_resolution_correct_witness :
    (0 < (1/2 : ℝ) ∧ 2 * scenarioBall.radius ≤ rectW.xPos2 - rectW.xPos1 ∧
      2 * scenarioBall.radius ≤ rectW.yPos2 - rectW.yPos1) ∧
    ((rectW.xPos1 ≤ (resolveCircleBoundaryCollision (1/2) scenarioBall rectW).x
        - (resolveCircleBoundaryCollision (1/2) scenarioBall rectW).radius ∧
      (resolveCircleBoundaryCollision (1/2) scenarioBall rectW).x
        + (resolveCircleBoundaryCollision (1/2) scenarioBall rectW).radius ≤ rectW.xPos2 ∧
      rectW.yPos1 ≤ (resolveCircleBoundaryCollision (1/2) scenarioBall rectW).y
        - (resolveCircleBoundaryCollision (1/2) scenarioBall rectW).radius ∧
      (resolveCircleBoundaryCollision (1/2) scenarioBall rectW).y
        + (resolveCircleBoundaryCollision (1/2) scenarioBall rectW).radius ≤ rectW.yPos2) ∧
    ((scenarioBall.x - scenarioBall.radius < rectW.xPos1 ∨
        rectW.xPos2 < scenarioBall.x + scenarioBall.radius) →
      (resolveCircleBoundaryCollision (1/2) scenarioBall rectW).vx = -scenarioBall.vx * (1/2)) ∧
    ((rectW.xPos1 ≤ scenarioBall.x - scenarioBall.radius ∧
        scenarioBall.x + scenarioBall.radius ≤ rectW.xPos2) →
      (resolveCircleBoundaryCollision (1/2) scenarioBall rectW).vx = scenarioBall.vx) ∧
    ((scenarioBall.y - scenarioBall.radius < rectW.yPos1 ∨
        rectW.yPos2 < scenarioBall.y + scenarioBall.radius) →
      (resolveCircleBoundaryCollision (1/2) scenarioBall rectW).vy = -scenarioBall.vy * (1/2)) ∧
    ((rectW.yPos1 ≤ scenarioBall.y - scenarioBall.radius ∧
        scenarioBall.y + scenarioBall.radius ≤ rectW.yPos2) →
      (resolveCircleBoundaryCollision (1/2) scenarioBall rectW).vy = scenarioBall.vy) ∧
    ((resolveCircleBoundaryCollision (1/2) scenarioBall rectW).x = 1 ∧
      0 < (resolveCircleBoundaryCollision (1/2) scenarioBall rectW).vx)) :=
  ⟨⟨by norm_num, by norm_num [scenarioBall, rectW], by norm_num [scenarioBall, rectW]⟩,
   boundary_resolution_correct (1/2) scenarioBall rectW (by norm_num)
     (by norm_num [scenarioBall, rectW]) (by norm_num [scenarioBall, rectW])⟩

lemma foldl_preserve {α β γ : Type _} (f : α → β → α) (g : α → γ)
    (hf : ∀ s j, g (f s j) = g s) : ∀ (l : List β) (s : α), g (l.foldl f s) = g s := by
  intro l
  induction l with
  | nil => intro s; rfl
  | cons a t ih => intro s; rw [List.foldl_cons, ih, hf]

lemma collisionCheckAt_invariants (e : ℝ) (i j : Nat) (st : SimState) :
    simInvariants (collisionCheckAt e i j st) = simInvariants st := by
  rw [collisionCheckAt]
  split_ifs <;> simp [simInvariants, List.length_set]

lemma subStepIter_invariants (e : ℝ) (i : Nat) (sx sy : ℝ) (st : SimState) :
    simInvariants (subStepIter e i sx sy st) = simInvariants st := by
  have h := foldl_preserve (fun s j => collisionCheckAt e i j s) simInvariants
    (fun s j => collisionCheckAt_invariants e i j s)
    (List.range (st.balls.set i ((st.balls.getD i default).addPosition sx sy)).length)
    { st with balls := st.balls.set i ((st.balls.getD i default).addPosition sx sy) }
  simp only [subStepIter]
  rw [h]
  simp [simInvariants, List.length_set]

lemma subStepLoop_invariants (e : ℝ) (i : Nat) (sx sy : ℝ) :
    ∀ (fuel : Nat) (st : SimState),
      simInvariants (subStepLoop e i sx sy fuel st) = simInvariants st := by
  intro fuel
  induction fuel with
  | zero => intro st; rfl
  | succ n ih =>
    intro st
    rw [subStepLoop]
    split_ifs
    · rfl
    · rw [ih, subStepIter_invariants]

lemma getD_set_self {α : Type _} [Inhabited α] :
    ∀ (l : List α) (i : Nat) (a : α), i < l.length → (l.set i a).getD i default = a := by
  intro l
  induction l with
  | nil => intro i a h; simp at h
  | cons b t ih =>
    intro i a h
    cases i with
    | zero => rfl
    | succ n =>
      simp only [List.set, List.getD_cons_succ]
      exact ih n a (by simpa using h)

lemma applyFriction_visible (b : Ball) (f s : ℝ) :
    (b.applyFriction f s).visible = b.visible := by
  rw [Ball.applyFriction]
  split_ifs <;> rfl

lemma boundary_visible (e : ℝ) (b : Ball) (r : Rectangle) :
    (resolveCircleBoundaryCollision e b r).visible = b.visible := by
  rw [resolveCircleBoundaryCollision]
  split_ifs <;> rfl

/-- Claim C4 (amended): for every visible ball at a valid index whose
`stepsNeeded` is positive — the source only runs the pocket block inside
`if (stepsNeeded > 0.0)`, so a zero-velocity ball is excluded — if the ball is
inside a pocket region after its sub-step loop, it is marked invisible, its
address is appended to `turn.pocketedBalls`, and when the acting player's
target type is still undetermined and the ball is solid or striped, that type
goes to the acting player and the complementary type to the opponent at index
`(turnPlayerIndex + 1) % players.length`. -/
theorem processBall_pocket_rules
    (inPocket : Ball → Bool) (e f sv : ℝ) (bd : Rectangle)
    (balls : List Ball) (players : List Player) (turn : TurnInformation) (i : Nat)
    (hi : i < balls.length)
    (hvis : (balls.getD i default).visible = true)
    (hsteps : 0 < stepsNeeded (balls.getD i default))
    (hpocket : inPocket (afterLoopBallAt e balls turn i) = true) :
    ((processBall inPocket e f sv bd (balls, players, turn) i).1.getD i default).visible
      = false ∧
    (processBall inPocket e f sv bd (balls, players, turn) i).2.2.pocketedBalls
      = turn.pocketedBalls ++ [(afterLoopBallAt e balls turn i).addr] ∧
    ((players.getD turn.turnPlayerIndex default).targetBallType = BallType.undetermined →
      ((afterLoopBallAt e balls turn i).ballType = BallType.solid ∨
        (afterLoopBallAt e balls turn i).ballType = BallType.striped) →
      (processBall inPocket e f sv bd (balls, players, turn) i).2.1
        = (players.set turn.turnPlayerIndex ⟨(afterLoopBallAt e balls turn i).ballType⟩).set
            ((turn.turnPlayerIndex + 1) % players.length)
            ⟨oppositeType (afterLoopBallAt e balls turn i).ballType⟩) := by
  have hinv : simInvariants (loopResultAt e balls turn i)
      = simInvariants ⟨balls, turn, false⟩ := by
    simp only [loopResultAt]
    exact subStepLoop_invariants _ _ _ _ _ _
  simp only [simInvariants, Prod.mk.injEq] at hinv
  obtain ⟨hlen, hpk, hidx⟩ := hinv
  have hv : ¬((balls.getD i default).visible = false) := by rw [hvis]; simp
  simp only [processBall]
  rw [if_neg hv, if_pos hsteps]
  simp only [pocketPhase]
  rw [if_pos hpocket]
  refine ⟨?_, ?_, ?_⟩
  · rw [getD_set_self _ i _ (by rw [hlen]; exact hi)]
    rw [boundary_visible, applyFriction_visible]
    rfl
  · simpa using hpk
  · intro h1 h2
    show assignTargets players (loopResultAt e balls turn i).turn.turnPlayerIndex
        (afterLoopBallAt e balls turn i) = _
    rw [hidx, assignTargets, if_pos (by exact h1), if_pos h2]

/-- Claim C4 counterexample: a visible, zero-velocity ball sitting inside a
pocket region (the pocket predicate holds everywhere here) is left entirely
unchanged by its stepPhysics pass — it stays visible and nothing is appended
to `turn.pocketedBalls` — because the pocket block only runs when
`stepsNeeded > 0`. -/
theorem stationary_ball_in_pocket_not_pocketed :
    ballQ.vx = 0 ∧ ballQ.vy = 0 ∧ ballQ.visible = true ∧
    (fun _ : Ball => true) ballQ = true ∧
    processBall (fun _ => true) 1 (1/100) (1/100) rectW ([ballQ], playersW, turnW) 0
      = ([ballQ], playersW, turnW) ∧
    ((processBall (fun _ => true) 1 (1/100) (1/100) rectW ([ballQ], playersW, turnW) 0).1.getD
        0 default).visible = true ∧
    (processBall (fun _ => true) 1 (1/100) (1/100) rectW
        ([ballQ], playersW, turnW) 0).2.2.pocketedBalls = [] := by
  have hsteps : ¬(0 < stepsNeeded (([ballQ] : List Ball).getD 0 default)) := by
    show ¬(0 < stepsNeeded ballQ)
    simp [stepsNeeded, ballQ]
  have heq : processBall (fun _ => true) 1 (1/100) (1/100) rectW ([ballQ], playersW, turnW) 0
      = ([ballQ], playersW, turnW) := by
    rw [processBall]
    rw [if_neg (by simp [ballQ] : ¬((([ballQ] : List Ball).getD 0 default).visible = false)),
      if_neg hsteps]
  refine ⟨rfl, rfl, rfl, rfl, heq, ?_, ?_⟩
  · rw [heq]; rfl
  · rw [heq]; rfl

theorem processBall_pocket_rules_witness :
    0 < ([ballP] : List Ball).length ∧
    (([ballP] : List Ball).getD 0 default).visible = true ∧
    0 < stepsNeeded (([ballP] : List Ball).getD 0 default) ∧
    (((processBall (fun _ => true) 1 (1/100) (1/100) rectW
        ([ballP], playersW, turnW) 0).1.getD 0 default).visible = false ∧
     (processBall (fun _ => true) 1 (1/100) (1/100) rectW
        ([ballP], playersW, turnW) 0).2.2.pocketedBalls
       = turnW.pocketedBalls ++ [(afterLoopBallAt 1 [ballP] turnW 0).addr] ∧
     ((playersW.getD turnW.turnPlayerIndex default).targetBallType = BallType.undetermined →
       ((afterLoopBallAt 1 [ballP] turnW 0).ballType = BallType.solid ∨
         (afterLoopBallAt 1 [ballP] turnW 0).ballType = BallType.striped) →
       (processBall (fun _ => true) 1 (1/100) (1/100) rectW
          ([ballP], playersW, turnW) 0).2.1
         = (playersW.set turnW.turnPlayerIndex ⟨(afterLoopBallAt 1 [ballP] turnW 0).ballType⟩).set
             ((turnW.turnPlayerIndex + 1) % playersW.length)
             ⟨oppositeType (afterLoopBallAt 1 [ballP] turnW 0).ballType⟩)) :=
  ⟨by norm_num,
   rfl,
   by show 0 < stepsNeeded ballP; simp only [stepsNeeded, ballP]; rw [Int.ceil_pos]; norm_num,
   processBall_pocket_rules (fun _ => true) 1 (1/100) (1/100) rectW [ballP] playersW turnW 0
     (by norm_num) rfl
     (by show 0 < stepsNeeded ballP; simp only [stepsNeeded, ballP]; rw [Int.ceil_pos]; norm_num)
     rfl⟩
